import Mathlib

/-
Verification of the RAMSIS datamodel time-series and entity helpers.

The development shallowly embeds the data-manipulation core of the
`ramsis.datamodel` package:

  * `Sample` models a timestamped sample (`SeismicEvent` /
    `HydraulicSample`): a primary key, a foreign key to the owning
    container, the `datetime_value` timestamp and the remaining value
    payload collapsed into one field.
  * `merge` embeds `SeismicCatalog.merge` (seismics.py) including the
    optional `starttime` / `endtime` window; `hydraulicsMerge` embeds
    `Hydraulics.merge` (hydraulics.py) which has no window parameters.
  * `reduce`, `snapshot`, `getitem` embed the corresponding series
    methods; Python dynamic behaviour (calling a non-callable raises
    `TypeError`, list indexing raises `IndexError`) is made explicit in
    `Except` results, and the laziness of the Python `filter` builtin is preserved
    (no element, no call).
  * `clone` embeds the reflective `utils.clone`, over an attribute
    valuation `String → Option Int` and a `Mapper` listing properties,
    primary-key, relationship and foreign-key columns.
  * `Forecast.reset` / `Scenario.reset` / `Stage.reset` embed the reset
    cascade of forecast.py.
  * `afterFlush` embeds the `_delete_orphans` post-flush sweep of
    project.py, registered for the two multi-parent entity kinds.

Timestamps are natural numbers (datetimes are totally ordered and never
falsy in Python, so `starttime or default` is `Option.getD`).
-/

namespace Ramsis

/-- Timestamped sample: embeds `SeismicEvent` / `HydraulicSample`.
`id` is the primary key, `fk` the foreign key to the owning series,
`datetime_value` the timestamp and `value` the remaining value columns. -/
structure Sample where
  id : Option Nat
  fk : Option Nat
  datetime_value : Nat
  value : Int
deriving DecidableEq, Repr

/-- Embeds `SeismicEvent.copy` / `HydraulicSample.copy`, i.e.
`clone(self, with_foreignkeys=False)`: value columns are copied, the
primary key and foreign keys are left at the default of the fresh object. -/
def Sample.copy (s : Sample) : Sample :=
  { id := none, fk := none,
    datetime_value := s.datetime_value, value := s.value }

/-- Python `min(e.datetime_value for e in events)`; only ever invoked on a
non-empty list (guarded by `if cat.events:` in the source). -/
def minDatetime : List Sample → Nat
  | [] => 0
  | e :: es => es.foldl (fun acc s => Nat.min acc s.datetime_value) e.datetime_value

/-- Python `max(e.datetime_value for e in events)`; only ever invoked on a
non-empty list. -/
def maxDatetime : List Sample → Nat
  | [] => 0
  | e :: es => es.foldl (fun acc s => Nat.max acc s.datetime_value) e.datetime_value

/-- Effective `merge_begin`: `starttime` when given, else the minimum
timestamp over the merged-in series (seismics.py lines 106-109). -/
def windowStart (starttime : Option Nat) (catEvents : List Sample) : Nat :=
  match starttime with
  | some s => s
  | none => minDatetime catEvents

/-- Effective `merge_end`: `endtime` when given, else the maximum
timestamp over the merged-in series (seismics.py lines 107-111). -/
def windowEnd (endtime : Option Nat) (catEvents : List Sample) : Nat :=
  match endtime with
  | some e => e
  | none => maxDatetime catEvents

/-- The `filter_by_overlapping_datetime` predicate of the source: the
timestamp lies in the inclusive window `[mergeBegin, mergeEnd]`. -/
def inWindow (mergeBegin mergeEnd : Nat) (s : Sample) : Bool :=
  decide (mergeBegin ≤ s.datetime_value ∧ s.datetime_value ≤ mergeEnd)

/-- Errors raised by `merge`: the two `ValueError` raises of the source,
named `InvalidRange` by the spec. -/
inductive MergeError where
  | invalidRange
deriving DecidableEq, Repr

/-- Window resolution, in-window removal and copy-append of
`SeismicCatalog.merge` once the `starttime >= endtime` check has passed
(seismics.py lines 106-127). -/
def mergeWindowed (selfEvents catEvents : List Sample)
    (starttime endtime : Option Nat) : Option MergeError × List Sample :=
  let mergeBegin := windowStart starttime catEvents
  let mergeEnd := windowEnd endtime catEvents
  if mergeBegin > mergeEnd then
    (some MergeError.invalidRange, selfEvents)
  else
    (none,
      selfEvents.filter (fun e => !(inWindow mergeBegin mergeEnd e)) ++
        (catEvents.filter (fun e => inWindow mergeBegin mergeEnd e)).map
          Sample.copy)

/-- Embeds `SeismicCatalog.merge(cat, starttime, endtime)`.  The first
component is the raised error (if any), the second the resulting event
list of `self` (unchanged whenever an error is raised, since both raises
precede the `reduce` step in the source). -/
def merge (selfEvents catEvents : List Sample)
    (starttime endtime : Option Nat) : Option MergeError × List Sample :=
  if catEvents.isEmpty then
    (none, selfEvents)
  else
    match starttime, endtime with
    | some st, some et =>
      if st ≥ et then
        (some MergeError.invalidRange, selfEvents)
      else
        mergeWindowed selfEvents catEvents starttime endtime
    | _, _ => mergeWindowed selfEvents catEvents starttime endtime

/-- Embeds `Hydraulics.merge(other)` (hydraulics.py lines 77-102): the
window is always the min/max timestamp over `other`, and a copy of every
sample of `other` is appended (no window filter on the append). -/
def hydraulicsMerge (selfSamples otherSamples : List Sample) : List Sample :=
  if otherSamples.isEmpty then
    selfSamples
  else
    let firstSample := minDatetime otherSamples
    let lastSample := maxDatetime otherSamples
    selfSamples.filter (fun s => !(inWindow firstSample lastSample s)) ++
      otherSamples.map Sample.copy

/-- Python-level errors surfaced by the series helpers. -/
inductive PyError where
  | typeError
  | indexError
deriving DecidableEq, Repr

/-- The `filter_cond` argument of `reduce`: `None`, a callable, or any
other (non-callable) object. -/
inductive FilterCond where
  | noneCond
  | callable (f : Sample → Bool)
  | notCallable

/-- Embeds `SeismicCatalog.reduce` / `Hydraulics.reduce`.  The source
evaluates `list(filter(lambda e: not filter_cond(e), samples))` inside
`try`: calling `None` or a non-callable raises `TypeError` at the first
element (the Python `filter` builtin is lazy, so an empty list raises
nothing);
the handler clears the list when `filter_cond is None` and re-raises
otherwise. -/
def reduce (filter_cond : FilterCond) (samples : List Sample) :
    Except PyError (List Sample) :=
  match filter_cond with
  | FilterCond.callable f =>
    Except.ok (samples.filter (fun e => !(f e)))
  | FilterCond.noneCond =>
    Except.ok []
  | FilterCond.notCallable =>
    if samples.isEmpty then Except.ok [] else Except.error PyError.typeError

/-- Embeds `SeismicCatalog.snapshot` / `Hydraulics.snapshot`: the
filter defaults to accept-all, and the new series holds
`[s.copy() for s in samples if filter_cond(s)]`. -/
def snapshot (filter_cond : Option (Sample → Bool)) (samples : List Sample) :
    List Sample :=
  let f := filter_cond.getD (fun _ => true)
  (samples.filter f).map Sample.copy

/-- Python list indexing `l[item]` for integer `item`: negative indices
count from the end, anything out of range raises `IndexError`. -/
def pyListGet (l : List Sample) (item : Int) : Except PyError Sample :=
  let j := if item < 0 then item + l.length else item
  if h : 0 ≤ j ∧ j.toNat < l.length then
    Except.ok (l.get ⟨j.toNat, h.2⟩)
  else
    Except.error PyError.indexError

/-- Embeds `__getitem__` of `Hydraulics` / `SeismicCatalog`:
`self.samples[item] if self.samples else None`. -/
def getitem (samples : List Sample) (item : Int) :
    Except PyError (Option Sample) :=
  if samples.isEmpty then
    Except.ok none
  else
    (pyListGet samples item).map some

/-- ORM mapper metadata used by the reflective `clone` (utils.py): the
mapped property keys, and which of them are primary-key, relationship
and foreign-key columns. -/
structure Mapper where
  props : List String
  primaryKeys : List String
  relationshipKeys : List String
  foreignKeys : List String

/-- Python `setattr(ent, attr, v)` over an attribute valuation. -/
def setattr (ent : String → Option Int) (attr : String) (v : Option Int) :
    String → Option Int :=
  fun a => if a = attr then v else ent a

/-- Embeds `utils.clone(obj, with_foreignkeys)`: a fresh entity (all
attributes at the default `none`) receives, in order, every mapped
property not in `omit`, where `omit` is primary keys and relationships,
plus foreign keys unless `with_foreignkeys` is set. -/
def clone (m : Mapper) (obj : String → Option Int) (with_foreignkeys : Bool) :
    String → Option Int :=
  let omitted := m.primaryKeys ++ m.relationshipKeys ++
    (if with_foreignkeys then [] else m.foreignKeys)
  (m.props.filter (fun p => !(omitted.contains p))).foldl
    (fun newEnt attr => setattr newEnt attr (obj attr)) (fun _ => none)

/-- Status states (status.py `EStatus`). -/
inductive EStatus where
  | PENDING
  | RUNNING
  | ERROR
  | COMPLETE
  | DISPATCHED
deriving DecidableEq, Repr

/-- Stage kinds (forecast.py `EStage`). -/
inductive StageKind where
  | SEISMICITY
  | SEISMICITY_SKILL
  | HAZARD
  | RISK
deriving DecidableEq, Repr

/-- Model run: a `config` payload and an optional `Status` (collapsed to
its `state`). -/
structure ModelRun where
  config : Nat
  status : Option EStatus
deriving DecidableEq, Repr

/-- Forecast stage (forecast.py `ForecastStage` and subclasses). -/
structure Stage where
  kind : StageKind
  config : Nat
  enabled : Bool
  status : Option EStatus
  runs : List ModelRun
deriving DecidableEq, Repr

/-- Embeds `reset` dispatched over the concrete stage classes:
`SeismicityForecastStage.reset` sets `run.status = None` on each run;
`SeismicitySkillStage`, `HazardStage` and `RiskStage` have `pass`
bodies. -/
def Stage.reset (st : Stage) : Stage :=
  match st.kind with
  | StageKind.SEISMICITY =>
    { st with runs := st.runs.map (fun r => { r with status := none }) }
  | StageKind.SEISMICITY_SKILL => st
  | StageKind.HAZARD => st
  | StageKind.RISK => st

/-- Forecast scenario (forecast.py `ForecastScenario`). -/
structure Scenario where
  config : Nat
  enabled : Bool
  status : Option EStatus
  stages : List Stage
deriving DecidableEq, Repr

/-- Embeds `ForecastScenario.reset`: resets each stage. -/
def Scenario.reset (sc : Scenario) : Scenario :=
  { sc with stages := sc.stages.map Stage.reset }

/-- Forecast (forecast.py `Forecast`): its `seismiccatalog` relationship
is a list of catalog snapshots, each a list of events. -/
structure Forecast where
  config : Nat
  enabled : Bool
  status : Option EStatus
  seismiccatalog : List (List Sample)
  scenarios : List Scenario
deriving DecidableEq, Repr

/-- Embeds `Forecast.reset`: `self.seismiccatalog = []` followed by
`scenario.reset()` for each scenario. -/
def Forecast.reset (f : Forecast) : Forecast :=
  { f with seismiccatalog := [],
           scenarios := f.scenarios.map Scenario.reset }

/-- The multi-parent entity kinds registered in project.py `_ENTITIES`. -/
inductive EntityKind where
  | seismiccatalog
  | injectionwell
deriving DecidableEq, Repr

/-- Multi-parent entity (a `SeismicCatalog` or an `InjectionWell`): the
owner references present in the source (`scenario` exists only on
injection wells and stays `none` for catalogs). -/
structure MultiParentEntity where
  kind : EntityKind
  project : Option Nat
  forecast : Option Nat
  scenario : Option Nat
deriving DecidableEq, Repr

/-- Embeds one registered `_delete_orphans(entity)` listener: when the
dirty set of the flush holds an instance of the kind, every persisted entity
of that kind with `project=None` is deleted (project.py lines 30-45). -/
def deleteOrphansForKind (k : EntityKind) (dirty : List EntityKind)
    (persisted : List MultiParentEntity) : List MultiParentEntity :=
  if dirty.contains k then
    persisted.filter (fun ent => !(decide (ent.kind = k ∧ ent.project = none)))
  else
    persisted

/-- Embeds the full after-flush behaviour: the listeners registered for
`_ENTITIES = (SeismicCatalog, InjectionWell)` run in registration
order. -/
def afterFlush (dirty : List EntityKind)
    (persisted : List MultiParentEntity) : List MultiParentEntity :=
  deleteOrphansForKind EntityKind.injectionwell dirty
    (deleteOrphansForKind EntityKind.seismiccatalog dirty persisted)

/-- Sample at a plain timestamp, as built by the source tests
(`HydraulicSample(datetime_value=...)`, fresh objects without keys). -/
def mkSample (t : Nat) : Sample :=
  { id := none, fk := none, datetime_value := t, value := 0 }


/-- Helper: a filter by `p` after a filter by the negation of `p` keeps
nothing. -/
theorem filter_p_after_not (l : List Sample) (p : Sample → Bool) :
    (l.filter fun s => !(p s)).filter p = [] := by
  rw [List.filter_filter]
  refine List.filter_eq_nil_iff.mpr ?_
  intro a _
  cases p a <;> simp

/-- Helper: a filter by the negation of `p` is idempotent. -/
theorem filter_not_idem (l : List Sample) (p : Sample → Bool) :
    ((l.filter fun s => !(p s)).filter fun s => !(p s))
      = l.filter fun s => !(p s) := by
  rw [List.filter_filter]
  refine List.filter_congr ?_
  intro a _
  cases p a <;> simp

/-- Helper: the timestamp of a copy is the original timestamp, so `copy`
commutes with the window predicate. -/
theorem inWindow_copy (b e : Nat) (s : Sample) :
    inWindow b e (Sample.copy s) = inWindow b e s := rfl

/-- Helper: the appended copies of the in-window samples all lie in the
window. -/
theorem copies_filter_inWindow (catE : List Sample) (b e : Nat) :
    (((catE.filter fun s => inWindow b e s).map Sample.copy).filter
        fun s => inWindow b e s)
      = (catE.filter fun s => inWindow b e s).map Sample.copy := by
  refine List.filter_eq_self.mpr ?_
  intro a ha
  obtain ⟨o, ho, rfl⟩ := List.mem_map.mp ha
  rw [inWindow_copy]
  exact (List.mem_filter.mp ho).2

/-- Helper: none of the appended copies survives a filter by the negation
of the window predicate. -/
theorem copies_filter_not_inWindow (catE : List Sample) (b e : Nat) :
    (((catE.filter fun s => inWindow b e s).map Sample.copy).filter
        fun s => !(inWindow b e s))
      = [] := by
  refine List.filter_eq_nil_iff.mpr ?_
  intro a ha
  obtain ⟨o, ho, rfl⟩ := List.mem_map.mp ha
  rw [inWindow_copy]
  simp [(List.mem_filter.mp ho).2]

/-- Helper: characterization of a successful `mergeWindowed` call. -/
theorem mergeWindowed_ok_eq (selfE catE : List Sample) (st et : Option Nat)
    (res : List Sample)
    (hok : mergeWindowed selfE catE st et = (none, res)) :
    windowStart st catE ≤ windowEnd et catE ∧
    res = selfE.filter
        (fun s => !(inWindow (windowStart st catE) (windowEnd et catE) s)) ++
      (catE.filter
        (fun s => inWindow (windowStart st catE) (windowEnd et catE) s)).map
        Sample.copy := by
  simp only [mergeWindowed] at hok
  split at hok
  · simp at hok
  · next hgt =>
    obtain ⟨-, h2⟩ := Prod.mk.injEq .. ▸ hok
    exact ⟨Nat.le_of_not_lt hgt, h2.symm⟩

/-- Helper: characterization of a successful `merge` call with a non-empty
merged-in catalog. -/
theorem merge_ok_eq (selfE catE : List Sample) (st et : Option Nat)
    (res : List Sample) (hne : catE ≠ [])
    (hok : merge selfE catE st et = (none, res)) :
    windowStart st catE ≤ windowEnd et catE ∧
    res = selfE.filter
        (fun s => !(inWindow (windowStart st catE) (windowEnd et catE) s)) ++
      (catE.filter
        (fun s => inWindow (windowStart st catE) (windowEnd et catE) s)).map
        Sample.copy := by
  have hiE : catE.isEmpty = false := by
    simpa [List.isEmpty_iff] using hne
  rcases st with _ | s <;> rcases et with _ | e <;>
    simp only [merge, hiE, Bool.false_eq_true, if_false] at hok
  · exact mergeWindowed_ok_eq selfE catE none none res hok
  · exact mergeWindowed_ok_eq selfE catE none (some e) res hok
  · exact mergeWindowed_ok_eq selfE catE (some s) none res hok
  · split at hok
    · simp at hok
    · exact mergeWindowed_ok_eq selfE catE (some s) (some e) res hok

/-- C1: for a non-empty merged-in catalog, a successful
`merge(other, start, end)` removes from `self` exactly the samples whose
timestamp lies in the inclusive window (the in-window part of the result
is exactly the appended copies of the in-window samples of `other`),
retains the strictly-outside samples of `self` unchanged, and a sample
whose timestamp equals either window bound satisfies the window
predicate, so it is subject to both the removal and the insertion
step. -/
theorem merge_window_removal_and_append
    (selfE catE : List Sample) (st et : Option Nat) (res : List Sample)
    (hne : catE ≠ []) (hok : merge selfE catE st et = (none, res)) :
    (res.filter
        (fun s => inWindow (windowStart st catE) (windowEnd et catE) s)
      = (catE.filter
          (fun s => inWindow (windowStart st catE) (windowEnd et catE) s)).map
          Sample.copy)
    ∧ (res.filter
        (fun s => !(inWindow (windowStart st catE) (windowEnd et catE) s))
      = selfE.filter
          (fun s => !(inWindow (windowStart st catE) (windowEnd et catE) s)))
    ∧ (∀ s : Sample, s.datetime_value = windowStart st catE →
        inWindow (windowStart st catE) (windowEnd et catE) s = true)
    ∧ (∀ s : Sample, s.datetime_value = windowEnd et catE →
        inWindow (windowStart st catE) (windowEnd et catE) s = true) := by
  obtain ⟨hle, hres⟩ := merge_ok_eq selfE catE st et res hne hok
  subst hres
  refine ⟨?_, ?_, ?_, ?_⟩
  · rw [List.filter_append, filter_p_after_not, copies_filter_inWindow,
      List.nil_append]
  · rw [List.filter_append, filter_not_idem, copies_filter_not_inWindow,
      List.append_nil]
  · intro s hs
    simp only [inWindow, hs, decide_eq_true_eq]
    exact ⟨Nat.le_refl _, hle⟩
  · intro s hs
    simp only [inWindow, hs, decide_eq_true_eq]
    exact ⟨hle, Nat.le_refl _⟩

/-- Witness for C1 at a concrete input: `self` one sample at 10, `other`
one sample at 5, no explicit window, result `[10, 5]`. -/
theorem merge_window_removal_and_append_witness :
    (([mkSample 10, mkSample 5] : List Sample).filter
        (fun s => inWindow (windowStart none [mkSample 5])
          (windowEnd none [mkSample 5]) s)
      = (([mkSample 5] : List Sample).filter
          (fun s => inWindow (windowStart none [mkSample 5])
            (windowEnd none [mkSample 5]) s)).map Sample.copy)
    ∧ (([mkSample 10, mkSample 5] : List Sample).filter
        (fun s => !(inWindow (windowStart none [mkSample 5])
          (windowEnd none [mkSample 5]) s))
      = ([mkSample 10] : List Sample).filter
          (fun s => !(inWindow (windowStart none [mkSample 5])
            (windowEnd none [mkSample 5]) s))) :=
  ⟨(merge_window_removal_and_append [mkSample 10] [mkSample 5] none none
      [mkSample 10, mkSample 5] (by decide) (by decide)).1,
    (merge_window_removal_and_append [mkSample 10] [mkSample 5] none none
      [mkSample 10, mkSample 5] (by decide) (by decide)).2.1⟩

/-- C2: a successful merge yields the retained outside-window samples of
`self`, in their original relative order, followed by the copies of the
in-window samples of `other` in iteration order (no re-sort); and the
test scenario of the sources (7 hourly samples merged with 4 half-hourly
samples starting at minute 180) yields the 9 samples in the exact order
0, 60, 120, 300, 360, 180, 210, 240, 270 (minutes). -/
theorem merge_no_resort_order
    : (∀ (selfE catE : List Sample) (st et : Option Nat) (res : List Sample),
        catE ≠ [] → merge selfE catE st et = (none, res) →
        res = selfE.filter
            (fun s =>
              !(inWindow (windowStart st catE) (windowEnd et catE) s)) ++
          (catE.filter
            (fun s =>
              inWindow (windowStart st catE) (windowEnd et catE) s)).map
            Sample.copy)
    ∧ hydraulicsMerge ([0, 60, 120, 180, 240, 300, 360].map mkSample)
        ([180, 210, 240, 270].map mkSample)
      = [0, 60, 120, 300, 360, 180, 210, 240, 270].map mkSample := by
  constructor
  · intro selfE catE st et res hne hok
    exact (merge_ok_eq selfE catE st et res hne hok).2
  · decide

/-- Witness for C2 at a concrete input: merging one sample at 5 into one
sample at 10 with no explicit window. -/
theorem merge_no_resort_order_witness :
    ([mkSample 10, mkSample 5] : List Sample)
      = ([mkSample 10] : List Sample).filter
          (fun s => !(inWindow (windowStart none [mkSample 5])
            (windowEnd none [mkSample 5]) s)) ++
        (([mkSample 5] : List Sample).filter
          (fun s => inWindow (windowStart none [mkSample 5])
            (windowEnd none [mkSample 5]) s)).map Sample.copy :=
  merge_no_resort_order.1 [mkSample 10] [mkSample 5] none none
    [mkSample 10, mkSample 5] (by decide) (by decide)

/-- Helper: `mergeWindowed` raises exactly when the resolved window is
inverted. -/
theorem mergeWindowed_fst_ne_none (selfE catE : List Sample)
    (st et : Option Nat) :
    ((mergeWindowed selfE catE st et).1 ≠ none ↔
      windowStart st catE > windowEnd et catE) := by
  simp only [mergeWindowed]
  split
  · next h => simp [h]
  · next h => simp [h]

/-- Helper: when `mergeWindowed` raises, the event list is returned
unchanged. -/
theorem mergeWindowed_err_snd (selfE catE : List Sample) (st et : Option Nat)
    (h : (mergeWindowed selfE catE st et).1 ≠ none) :
    (mergeWindowed selfE catE st et).2 = selfE := by
  by_cases hgt : windowStart st catE > windowEnd et catE <;>
    simp [mergeWindowed, hgt] at h ⊢

/-- C3: `merge(cat, starttime, endtime)` raises an `InvalidRange` error
precisely when `cat` is non-empty and either both bounds are given with
`starttime >= endtime`, or the resolved window start exceeds the
resolved window end; on an error the event list of `self` is unchanged,
and an empty `cat` is always an error-free no-op. -/
theorem merge_invalid_range_iff (selfE catE : List Sample)
    (st et : Option Nat) :
    ((merge selfE catE st et).1 ≠ none ↔
      (catE ≠ [] ∧
        ((∃ s e, st = some s ∧ et = some e ∧ s ≥ e) ∨
          windowStart st catE > windowEnd et catE)))
    ∧ ((merge selfE catE st et).1 ≠ none →
        (merge selfE catE st et).2 = selfE)
    ∧ (catE = [] → merge selfE catE st et = (none, selfE)) := by
  by_cases hE : catE = []
  · subst hE
    simp [merge]
  · have hiE : catE.isEmpty = false := by
      simpa [List.isEmpty_iff] using hE
    rcases st with _ | s <;> rcases et with _ | e
    · refine ⟨?_, ?_, fun h => absurd h hE⟩
      · simp only [merge, hiE, Bool.false_eq_true, if_false]
        simp [mergeWindowed_fst_ne_none, hE]
      · simp only [merge, hiE, Bool.false_eq_true, if_false]
        exact mergeWindowed_err_snd selfE catE none none
    · refine ⟨?_, ?_, fun h => absurd h hE⟩
      · simp only [merge, hiE, Bool.false_eq_true, if_false]
        simp [mergeWindowed_fst_ne_none, hE]
      · simp only [merge, hiE, Bool.false_eq_true, if_false]
        exact mergeWindowed_err_snd selfE catE none (some e)
    · refine ⟨?_, ?_, fun h => absurd h hE⟩
      · simp only [merge, hiE, Bool.false_eq_true, if_false]
        simp [mergeWindowed_fst_ne_none, hE]
      · simp only [merge, hiE, Bool.false_eq_true, if_false]
        exact mergeWindowed_err_snd selfE catE (some s) none
    · by_cases hge : s ≥ e
      · refine ⟨?_, ?_, fun h => absurd h hE⟩ <;>
          simp [merge, hiE, hge, hE]
      · refine ⟨?_, ?_, fun h => absurd h hE⟩
        · simp only [merge, hiE, Bool.false_eq_true, if_false, if_neg hge]
          simp only [mergeWindowed_fst_ne_none]
          constructor
          · intro h
            exact ⟨hE, Or.inr h⟩
          · rintro ⟨-, h | h⟩
            · obtain ⟨s', e', hs', he', hge'⟩ := h
              obtain rfl : s = s' := by injection hs'
              obtain rfl : e = e' := by injection he'
              exact absurd hge' hge
            · exact h
        · simp only [merge, hiE, Bool.false_eq_true, if_false, if_neg hge]
          exact mergeWindowed_err_snd selfE catE (some s) (some e)

/-- Witness for C3 at a concrete input: merging a non-empty catalog with
`starttime = 3 >= endtime = 2` raises. -/
theorem merge_invalid_range_iff_witness :
    (merge ([] : List Sample) [mkSample 5] (some 3) (some 2)).1 ≠ none :=
  (merge_invalid_range_iff [] [mkSample 5] (some 3) (some 2)).1.mpr
    ⟨by decide, Or.inl ⟨3, 2, rfl, rfl, by decide⟩⟩

/-- C4: merging the same catalog twice with the same explicit
`[start, end]` window leaves the event list where one merge put it:
the second merge removes exactly the window content the first merge
inserted and re-inserts the same copies. -/
theorem merge_idempotent_explicit_window
    (selfE catE : List Sample) (s e : Nat) :
    (merge (merge selfE catE (some s) (some e)).2 catE (some s) (some e)).2
      = (merge selfE catE (some s) (some e)).2 := by
  by_cases hE : catE = []
  · simp [merge, hE]
  · have hiE : catE.isEmpty = false := by
      simpa [List.isEmpty_iff] using hE
    by_cases hge : s ≥ e
    · simp [merge, hiE, hge]
    · have hnot : ¬ (windowStart (some s) catE > windowEnd (some e) catE) := by
        simp only [windowStart, windowEnd]
        omega
      simp only [merge, hiE, Bool.false_eq_true, if_false, if_neg hge,
        mergeWindowed, if_neg hnot]
      rw [List.filter_append, filter_not_idem, copies_filter_not_inWindow,
        List.append_nil]

/-- Helper: `Stage.reset` keeps the stage kind, config, enabled flag and
status field. -/
theorem stage_reset_preserves_fields (st : Stage) :
    (Stage.reset st).kind = st.kind ∧ (Stage.reset st).config = st.config ∧
    (Stage.reset st).enabled = st.enabled ∧
    (Stage.reset st).status = st.status := by
  rcases st with ⟨k, c, en, stat, runs⟩
  cases k <;> exact ⟨rfl, rfl, rfl, rfl⟩

/-- Helper: `Stage.reset` keeps every run config. -/
theorem stage_reset_run_configs (st : Stage) :
    (Stage.reset st).runs.map ModelRun.config
      = st.runs.map ModelRun.config := by
  rcases st with ⟨k, c, en, stat, runs⟩
  cases k <;> simp [Stage.reset, List.map_map, Function.comp]

/-- Helper: `Stage.reset` clears run statuses to `none` on seismicity
stages and leaves the runs of the other stage kinds untouched. -/
theorem stage_reset_run_statuses (st : Stage) :
    (Stage.reset st).runs.map ModelRun.status
      = (if st.kind = StageKind.SEISMICITY
          then st.runs.map (fun _ => (none : Option EStatus))
          else st.runs.map ModelRun.status) := by
  rcases st with ⟨k, c, en, stat, runs⟩
  cases k
  · rw [if_pos rfl]
    simp only [Stage.reset, List.map_map]
    exact List.map_congr_left (fun r _ => rfl)
  · rfl
  · rfl
  · rfl

/-- Concrete model run whose computation completed. -/
def runEx : ModelRun := { config := 4, status := some EStatus.COMPLETE }

/-- Concrete seismicity stage holding one completed run. -/
def stageEx : Stage :=
  { kind := StageKind.SEISMICITY, config := 3, enabled := true,
    status := some EStatus.COMPLETE, runs := [runEx] }

/-- Concrete scenario holding one seismicity stage. -/
def scenarioEx : Scenario :=
  { config := 2, enabled := true, status := some EStatus.COMPLETE,
    stages := [stageEx] }

/-- Concrete forecast with a catalog snapshot and one scenario. -/
def forecastEx : Forecast :=
  { config := 1, enabled := true, status := some EStatus.COMPLETE,
    seismiccatalog := [[mkSample 0]], scenarios := [scenarioEx] }

/-- Counterexample to C5: after `Forecast.reset`, the model run under the
seismicity stage has a cleared (`none`) status, not `PENDING`, so reset
does not set every scenario, stage and model run to `PENDING` status. -/
theorem forecast_reset_not_pending :
    ¬ (∀ sc ∈ (Forecast.reset forecastEx).scenarios, ∀ st ∈ sc.stages,
        ∀ r ∈ st.runs, r.status = some EStatus.PENDING) := by
  decide

/-- C5 (amended): `Forecast.reset` empties the `seismiccatalog`
collection and recursively resets scenarios and stages; configuration
and `enabled` flags at every level are unchanged, the status fields of
the forecast, the scenarios and the stages are untouched, run configs
are kept, and the run statuses of seismicity stages are cleared to
`none` (null status, not `PENDING`) while runs of other stage kinds are
untouched. -/
theorem forecast_reset_clears_results (f : Forecast) :
    (Forecast.reset f).config = f.config ∧
    (Forecast.reset f).enabled = f.enabled ∧
    (Forecast.reset f).status = f.status ∧
    (Forecast.reset f).seismiccatalog = [] ∧
    (Forecast.reset f).scenarios.map Scenario.config
      = f.scenarios.map Scenario.config ∧
    (Forecast.reset f).scenarios.map Scenario.enabled
      = f.scenarios.map Scenario.enabled ∧
    (Forecast.reset f).scenarios.map Scenario.status
      = f.scenarios.map Scenario.status ∧
    (Forecast.reset f).scenarios.map (fun sc => sc.stages.map Stage.config)
      = f.scenarios.map (fun sc => sc.stages.map Stage.config) ∧
    (Forecast.reset f).scenarios.map (fun sc => sc.stages.map Stage.status)
      = f.scenarios.map (fun sc => sc.stages.map Stage.status) ∧
    (Forecast.reset f).scenarios.map
        (fun sc => sc.stages.map (fun st => st.runs.map ModelRun.config))
      = f.scenarios.map
        (fun sc => sc.stages.map (fun st => st.runs.map ModelRun.config)) ∧
    (Forecast.reset f).scenarios.map
        (fun sc => sc.stages.map (fun st => st.runs.map ModelRun.status))
      = f.scenarios.map
        (fun sc => sc.stages.map (fun st =>
          if st.kind = StageKind.SEISMICITY
            then st.runs.map (fun _ => (none : Option EStatus))
            else st.runs.map ModelRun.status)) := by
  refine ⟨rfl, rfl, rfl, rfl, ?_, ?_, ?_, ?_, ?_, ?_, ?_⟩ <;>
    simp only [Forecast.reset, List.map_map] <;>
    refine List.map_congr_left (fun sc _ => ?_) <;>
    simp only [Function.comp, Scenario.reset, List.map_map] <;>
    refine List.map_congr_left (fun st _ => ?_)
  · exact (stage_reset_preserves_fields st).2.1
  · exact (stage_reset_preserves_fields st).2.2.2
  · exact stage_reset_run_configs st
  · exact stage_reset_run_statuses st

/-- Concrete catalog entity referenced by a forecast but by no project. -/
def forecastOwnedCatalog : MultiParentEntity :=
  { kind := EntityKind.seismiccatalog, project := none,
    forecast := some 1, scenario := none }

/-- Counterexample to C6: an entity still referenced by its forecast
owner (only the project reference is unset) is deleted by the sweep, so
the sweep does not wait for all owner references to be unset. -/
theorem orphan_sweep_deletes_forecast_owned :
    forecastOwnedCatalog.forecast ≠ none ∧
    afterFlush [EntityKind.seismiccatalog] [forecastOwnedCatalog] = [] := by
  decide

/-- C6 (amended): the sweep deletes a persisted multi-parent entity
exactly when the dirty set of the flush holds an instance of the kind
of the entity and the project reference of the entity is unset; the
forecast and scenario references are never consulted, and an entity
whose project reference is set is never deleted. -/
theorem orphan_sweep_deletes_iff_project_unset (dirty : List EntityKind)
    (persisted : List MultiParentEntity) :
    (afterFlush dirty persisted
      = persisted.filter
          (fun ent =>
            !(dirty.contains ent.kind && decide (ent.project = none))))
    ∧ (∀ ent ∈ persisted, ent.project ≠ none →
        ent ∈ afterFlush dirty persisted) := by
  have hchar : afterFlush dirty persisted
      = persisted.filter
          (fun ent =>
            !(dirty.contains ent.kind && decide (ent.project = none))) := by
    by_cases h1 : dirty.contains EntityKind.seismiccatalog <;>
      by_cases h2 : dirty.contains EntityKind.injectionwell <;>
      simp only [afterFlush, deleteOrphansForKind, h1, h2, if_true, if_false,
        Bool.false_eq_true, List.filter_filter]
    · have m1 : EntityKind.seismiccatalog ∈ dirty := by simpa using h1
      have m2 : EntityKind.injectionwell ∈ dirty := by simpa using h2
      refine List.filter_congr ?_
      intro ent _
      rcases ent with ⟨k, p, fc, sc⟩
      cases k <;> simp [m1, m2]
    · have m1 : EntityKind.seismiccatalog ∈ dirty := by simpa using h1
      have m2 : EntityKind.injectionwell ∉ dirty := by simpa using h2
      refine List.filter_congr ?_
      intro ent _
      rcases ent with ⟨k, p, fc, sc⟩
      cases k <;> simp [m1, m2]
    · have m1 : EntityKind.seismiccatalog ∉ dirty := by simpa using h1
      have m2 : EntityKind.injectionwell ∈ dirty := by simpa using h2
      refine List.filter_congr ?_
      intro ent _
      rcases ent with ⟨k, p, fc, sc⟩
      cases k <;> simp [m1, m2]
    · have m1 : EntityKind.seismiccatalog ∉ dirty := by simpa using h1
      have m2 : EntityKind.injectionwell ∉ dirty := by simpa using h2
      refine (List.filter_eq_self.mpr ?_).symm
      intro ent _
      rcases ent with ⟨k, p, fc, sc⟩
      cases k <;> simp [m1, m2]
  refine ⟨hchar, ?_⟩
  intro ent hmem hproj
  rw [hchar]
  refine List.mem_filter.mpr ⟨hmem, ?_⟩
  simp [hproj]

/-- Witness for C6 (amended) at a concrete input: a project-owned catalog
survives a flush that dirtied a catalog. -/
theorem orphan_sweep_project_owned_survives :
    ({ kind := EntityKind.seismiccatalog, project := some 0,
       forecast := none, scenario := none } : MultiParentEntity)
      ∈ afterFlush [EntityKind.seismiccatalog]
        [{ kind := EntityKind.seismiccatalog, project := some 0,
           forecast := none, scenario := none }] :=
  (orphan_sweep_deletes_iff_project_unset [EntityKind.seismiccatalog]
      [{ kind := EntityKind.seismiccatalog, project := some 0,
         forecast := none, scenario := none }]).2
    _ (by decide) (by decide)

/-- Counterexample to C7: on an empty series, `reduce` with a
non-callable non-`None` argument raises nothing (the Python `filter`
builtin never calls the predicate on an empty list), it returns the
empty list instead of a `TypeError`. -/
theorem reduce_notCallable_empty_no_error :
    reduce FilterCond.notCallable ([] : List Sample) = Except.ok [] := rfl

/-- C7 (amended): `reduce(None)` empties the series; `reduce(pred)` with
a callable removes in place exactly the samples satisfying `pred`,
keeping the rest as a sublist (relative order preserved); a non-callable
argument other than `None` raises `TypeError` whenever the series is
non-empty, and is a silent no-op on an empty series. -/
theorem reduce_spec (samples : List Sample) (f : Sample → Bool) :
    reduce FilterCond.noneCond samples = Except.ok [] ∧
    (∃ kept, reduce (FilterCond.callable f) samples = Except.ok kept ∧
      kept.Sublist samples ∧
      kept = samples.filter (fun e => !(f e)) ∧
      (∀ e, e ∈ kept ↔ e ∈ samples ∧ f e = false)) ∧
    (samples ≠ [] →
      reduce FilterCond.notCallable samples = Except.error PyError.typeError) ∧
    reduce FilterCond.notCallable ([] : List Sample) = Except.ok [] := by
  refine ⟨rfl, ?_, ?_, rfl⟩
  · refine ⟨samples.filter (fun e => !(f e)), rfl, List.filter_sublist _,
      rfl, ?_⟩
    intro e
    rw [List.mem_filter]
    cases hfe : f e <;> simp [hfe]
  · intro hne
    have hiE : samples.isEmpty = false := by
      simpa [List.isEmpty_iff] using hne
    simp [reduce, hiE]

/-- Witness for C7 (amended) at a concrete input: a singleton series and
an always-true predicate. -/
theorem reduce_spec_witness :
    reduce FilterCond.notCallable [mkSample 0]
      = Except.error PyError.typeError :=
  (reduce_spec [mkSample 0] (fun _ => true)).2.2.1 (by decide)

/-- C8: `snapshot(pred)` returns a series that is, element for element
and in the same relative order, the samples of the original satisfying
`pred` (default: all), each element carrying the value columns of its
original while the primary-key and foreign-key fields are not carried
over; `snapshot` reads but never modifies its input (it is a pure
function of the sample list here). -/
theorem snapshot_structural_copies (filter_cond : Option (Sample → Bool))
    (samples : List Sample) :
    List.Forall₂
      (fun c o => c.id = none ∧ c.fk = none ∧
        c.datetime_value = o.datetime_value ∧ c.value = o.value)
      (snapshot filter_cond samples)
      (samples.filter (filter_cond.getD (fun _ => true))) := by
  unfold snapshot
  rw [List.forall₂_map_left_iff]
  exact List.forall₂_same.mpr (fun x _ => ⟨rfl, rfl, rfl, rfl⟩)

/-- Helper: the attribute-copy fold of `clone` writes `obj attr` at every
attribute in the copied list and leaves the rest at the initial
valuation. -/
theorem clone_foldl_get (obj : String → Option Int) (x : String) :
    ∀ (l : List String) (init : String → Option Int),
      (l.foldl (fun ent attr => setattr ent attr (obj attr)) init) x
        = if x ∈ l then obj x else init x := by
  intro l
  induction l with
  | nil => intro init; simp
  | cons a l ih =>
    intro init
    rw [List.foldl_cons, ih]
    by_cases hx : x ∈ l
    · simp [hx]
    · by_cases hxa : x = a
      · subst hxa
        simp [hx, setattr]
      · simp [hx, hxa, setattr]

/-- C9: a `clone` without foreign keys copies every mapped simple
attribute that is neither a primary-key nor a relationship nor a
foreign-key column, and leaves primary-key, relationship and foreign-key
attributes at the fresh-object default `none`; a `clone` with foreign
keys additionally copies the foreign-key scalar columns while still
omitting primary keys and relationships. -/
theorem clone_pk_rel_fk_policy (m : Mapper) (obj : String → Option Int)
    (attr : String) :
    (attr ∈ m.props → attr ∉ m.primaryKeys → attr ∉ m.relationshipKeys →
      attr ∉ m.foreignKeys →
      clone m obj false attr = obj attr ∧ clone m obj true attr = obj attr) ∧
    (attr ∈ m.primaryKeys ∨ attr ∈ m.relationshipKeys →
      clone m obj false attr = none ∧ clone m obj true attr = none) ∧
    (attr ∈ m.foreignKeys → attr ∉ m.primaryKeys →
      attr ∉ m.relationshipKeys →
      clone m obj false attr = none ∧
      (attr ∈ m.props → clone m obj true attr = obj attr)) := by
  have key : ∀ wfk : Bool, clone m obj wfk attr
      = if attr ∈ m.props.filter
            (fun p => !((m.primaryKeys ++ m.relationshipKeys ++
              (if wfk then [] else m.foreignKeys)).contains p))
          then obj attr else none := by
    intro wfk
    exact clone_foldl_get obj attr _ _
  refine ⟨?_, ?_, ?_⟩
  · intro hp hpk hrel hfk
    constructor <;>
      rw [key] <;>
      rw [if_pos] <;>
      simp [List.mem_filter, hp, hpk, hrel, hfk]
  · intro hor
    constructor <;>
      rw [key] <;>
      rw [if_neg] <;>
      simp [List.mem_filter] <;>
      intro _ <;>
      rcases hor with h | h <;>
      simp [h]
  · intro hfk hpk hrel
    constructor
    · rw [key]
      rw [if_neg]
      simp [List.mem_filter]
      intro _ _ _
      exact hfk
    · intro hp
      rw [key]
      rw [if_pos]
      simp [List.mem_filter, hp, hpk, hrel]

/-- Concrete mapper of a sample-like entity for the C9 witness. -/
def mapperEx : Mapper :=
  { props := ["id", "project_id", "datetime_value", "magnitude_value"],
    primaryKeys := ["id"],
    relationshipKeys := ["project"],
    foreignKeys := ["project_id"] }

/-- Concrete attribute valuation for the C9 witness. -/
def objEx : String → Option Int :=
  fun a =>
    if a = "id" then some 1
    else if a = "project_id" then some 7
    else if a = "datetime_value" then some 5
    else if a = "magnitude_value" then some 3
    else none

/-- Witness for C9 at a concrete input: the simple column is copied, the
primary key is not, the foreign key is copied exactly when requested. -/
theorem clone_pk_rel_fk_policy_witness :
    clone mapperEx objEx false "datetime_value" = objEx "datetime_value" ∧
    clone mapperEx objEx false "id" = none ∧
    clone mapperEx objEx false "project_id" = none ∧
    clone mapperEx objEx true "project_id" = objEx "project_id" :=
  ⟨((clone_pk_rel_fk_policy mapperEx objEx "datetime_value").1
      (by decide) (by decide) (by decide) (by decide)).1,
    ((clone_pk_rel_fk_policy mapperEx objEx "id").2.1
      (Or.inl (by decide))).1,
    ((clone_pk_rel_fk_policy mapperEx objEx "project_id").2.2
      (by decide) (by decide) (by decide)).1,
    ((clone_pk_rel_fk_policy mapperEx objEx "project_id").2.2
      (by decide) (by decide) (by decide)).2 (by decide)⟩

/-- Helper: the in-range test of Python list indexing, after negative
index normalization, is the usual `-len <= item < len` condition. -/
theorem pyListGet_cond (n : Nat) (hn : 0 < n) (item j : Int)
    (hj : j = if item < 0 then item + n else item) :
    ((0 ≤ j ∧ j.toNat < n) ↔ (-(n : Int) ≤ item ∧ item < n)) := by
  subst hj
  split <;> constructor <;> intro h <;> constructor <;> omega

/-- C10: indexing an empty series returns `None` for every index (total,
no `IndexError`), while indexing a non-empty series delegates to Python
list indexing: it yields a sample exactly when the index is in the range
`-len .. len-1` and raises `IndexError` exactly when it is not. -/
theorem getitem_empty_total (samples : List Sample) (item : Int) :
    (samples = [] → getitem samples item = Except.ok none) ∧
    (samples ≠ [] →
      ((∃ v, getitem samples item = Except.ok (some v)) ↔
        (-(samples.length : Int) ≤ item ∧ item < samples.length)) ∧
      (getitem samples item = Except.error PyError.indexError ↔
        ¬(-(samples.length : Int) ≤ item ∧ item < samples.length))) := by
  constructor
  · intro h
    subst h
    rfl
  · intro hne
    have hn : 0 < samples.length := List.length_pos.mpr hne
    have hiE : samples.isEmpty = false := by
      simpa [List.isEmpty_iff] using hne
    simp only [getitem, hiE, Bool.false_eq_true, if_false, pyListGet]
    by_cases h : (0 ≤ (if item < 0 then item + (samples.length : Int) else item) ∧
        (if item < 0 then item + (samples.length : Int) else item).toNat
          < samples.length)
    · rw [dif_pos h]
      have hcond := (pyListGet_cond samples.length hn item _ rfl).mp h
      constructor
      · exact iff_of_true ⟨_, rfl⟩ hcond
      · exact iff_of_false (by simp [Except.map]) (fun hc => hc hcond)
    · rw [dif_neg h]
      have hcond : ¬(-(samples.length : Int) ≤ item ∧ item < samples.length) :=
        fun hc => h ((pyListGet_cond samples.length hn item _ rfl).mpr hc)
      constructor
      · refine iff_of_false ?_ hcond
        rintro ⟨v, hv⟩
        simp [Except.map] at hv
      · exact iff_of_true (by simp [Except.map]) hcond

/-- Witness for C10 at concrete inputs: any index on the empty series
gives `None`, and an out-of-range index on a singleton series raises. -/
theorem getitem_empty_total_witness :
    getitem ([] : List Sample) 7 = Except.ok none ∧
    getitem [mkSample 0] 5 = Except.error PyError.indexError :=
  ⟨(getitem_empty_total ([] : List Sample) 7).1 rfl,
    ((getitem_empty_total [mkSample 0] 5).2 (by decide)).2.mpr (by decide)⟩

end Ramsis
